import Mathlib

/-!
Verification of the kriterium helper libraries (Go): the tagged error-code
generator (`errors` package), the flag declaration / required-option
verification utility (`flags` package), and the panic-to-error recovery
bridge (`panics` package).

The Go source is shallowly embedded: pure functions become Lean functions,
panicking paths become explicit outcome constructors, and the in-flight
panic payload of `recover()` is passed explicitly.
-/

namespace Kriterium

/-- Go error values as they occur in this library: either a plain error
created by fmt.Errorf / the errors package carrying only a message string,
or the panics package's recoveredError carrier (flag.go: a struct holding a
cause error and an err error). -/
inductive GoError where
  | mk (msg : String)
  | recovered (cause : GoError) (err : GoError)
deriving DecidableEq

/-- Error() method: recoveredError.Error() returns e.err.Error(); a plain
error returns its message. -/
def GoError.errorMsg : GoError → String
  | .mk m => m
  | .recovered _ e => e.errorMsg

/-- Model of strings.HasPrefix: whether pre is a prefix of s, at the level
of character data. -/
def strStartsB (pre s : String) : Bool :=
  pre.data.isPrefixOf s.data

/-- Containment of needle inside hay, used to state that an error message
names an option. -/
def strContains (needle hay : String) : Prop :=
  ∃ a b : String, hay = a ++ needle ++ b

/-- Model of the space-joining done by fmt.Sprintln over already-formatted
operands: operands are joined by single spaces (the per-operand default-verb
formatting of Go is taken as given, so operands are modelled as the strings
they format to). -/
def joinSpace : List String → String
  | [] => ""
  | [s] => s
  | s :: rest => s ++ " " ++ joinSpace rest

/-- Model of fmt.Sprintln: operands joined by single spaces followed by a
newline. -/
def sprintln (items : List String) : String :=
  joinSpace items ++ "\n"

namespace Errors

/-- New from src/errors/errors.go: returns a generator which, applied to
arguments, produces an error whose message is Sprintln of the prefix
"ERR - errcode" (with a ":" decoration exactly when arguments are present)
followed by the arguments. -/
def New (errcode : String) (args : List String) : GoError :=
  let decoration := if args.length > 0 then ":" else ""
  GoError.mk (sprintln (("ERR - " ++ errcode ++ decoration) :: args))

/-- Modelled from the spec: the coded generator binding IllegalArgument of
the kriterium errors package is not under src (only the generator New and a
usage example constructing such bindings are). Following the usage example's
pattern of binding a code's name to its coded generator, it is the generator
for the code "IllegalArgument". -/
def IllegalArgument (args : List String) : GoError :=
  New "IllegalArgument" args

/-- Modelled from the spec: the coded generator binding IllegalState of the
kriterium errors package is not under src; as for IllegalArgument, it is the
generator for the code "IllegalState". -/
def IllegalState (args : List String) : GoError :=
  New "IllegalState" args

/-- Modelled from the spec: the coded generator binding RequiredFlag of the
kriterium errors package is not under src; as for IllegalArgument, it is the
generator for the code "RequiredFlag", producing the requirement-violation
errors of flags.UsageVerify. -/
def RequiredFlag (args : List String) : GoError :=
  New "RequiredFlag" args

/-- Modelled from the spec: the TypedError generator with its Code and
Matches members is code of this repository not under src (only its black-box
test is). Per the spec, the generator made for a code produces errors whose
message is the code optionally followed by a colon and the joined arguments.
typedErrMsg gives that message. -/
def typedErrMsg (code : String) (args : List String) : String :=
  match args with
  | [] => code
  | _ => code ++ ": " ++ joinSpace args

/-- Modelled from the spec: the Matches predicate of the TypedError
generator checks whether a given error's message begins with that code's
formatted prefix. -/
def Matches (code : String) (e : GoError) : Bool :=
  strStartsB code e.errorMsg

end Errors

namespace Panics

/-- A recovered panic payload, as distinguished by the type switch shared by
Recover, AsyncRecover and ExitHandler: the package's own recoveredError
carrier, any other error value, a string, or anything else (whose
percent-q formatted text is carried as a string, since only that text is
observable downstream). -/
inductive Payload where
  | carrier (cause err : GoError)
  | err (e : GoError)
  | str (s : String)
  | other (txt : String)
deriving DecidableEq

/-- Model of strings.Trim(msg, " "): strip space characters from both ends. -/
def trimSp (s : String) : String :=
  String.mk (((s.data.dropWhile (· = ' ')).reverse.dropWhile (· = ' ')).reverse)

/-- fmtInfo from the panics package: each info fragment is formatted (the
fragments are modelled as the strings they format to), prefixed by a single
space, concatenated, and the result is trimmed of spaces at both ends. -/
def fmtInfo (info : List String) : String :=
  trimSp (String.join (info.map (fun s => " " ++ s)))

/-- Cause: if the argument is the package's recoveredError carrier, return
its cause; otherwise return the argument unchanged. -/
def Cause (e : GoError) : GoError :=
  match e with
  | .recovered c _ => c
  | e => e

/-- OnFalse: no panic when flag is true; when flag is false, panic with a
recoveredError whose cause and err fields are one and the same formatted
assert-fail error. The result is the panic payload in flight (none when no
panic). -/
def OnFalse (flag : Bool) (info : List String) : Option Payload :=
  if flag then none
  else
    let e := GoError.mk (fmtInfo info ++ " - assert-fail:")
    some (.carrier e e)

/-- OnTrue: no panic when flag is false; when flag is true, panic with a
recoveredError whose cause and err fields are one and the same formatted
assert-fail error. -/
def OnTrue (flag : Bool) (info : List String) : Option Payload :=
  if !flag then none
  else
    let e := GoError.mk (fmtInfo info ++ " - assert-fail:")
    some (.carrier e e)

/-- OnNil: no panic when v is non-nil; when v is nil, panic with a
recoveredError whose cause and err fields are one and the same formatted
value-is-nil error. Interface nil-ness is modelled by Option. -/
def OnNil (v : Option Unit) (info : List String) : Option Payload :=
  match v with
  | some _ => none
  | none =>
    let e := GoError.mk (fmtInfo info ++ " - value is nil:")
    some (.carrier e e)

/-- OnError: no panic when e is nil. Otherwise panic with a recoveredError
whose cause is e and whose err is: a wrapping error mentioning the info and
the cause when info is non-empty; an error-prefixed wrapping of e's message
when e's message does not already start with the text error-colon; or e
itself otherwise. -/
def OnError (e : Option GoError) (info : List String) : Option Payload :=
  match e with
  | none => none
  | some e0 =>
    let err : GoError :=
      if info.length > 0 then
        GoError.mk ("error: " ++ fmtInfo info ++ " (cause: " ++ e0.errorMsg ++ ")")
      else if !(strStartsB "error:" e0.errorMsg) then
        GoError.mk ("error: " ++ fmtInfo info ++ e0.errorMsg)
      else e0
    some (.carrier e0 err)

/-- The discriminated payload-to-error mapping of the type switch in
Recover (shared verbatim by AsyncRecover and ExitHandler): the package's own
carrier is used as the error itself (its message delegates to its err
field), a generic error is used directly, a string is wrapped via
fmt.Errorf, and anything else is formatted as a recovered-panic message. -/
def classify : Payload → GoError
  | .carrier c m => GoError.recovered c m
  | .err e => e
  | .str s => GoError.mk s
  | .other t => GoError.mk ("recovered-panic: " ++ t)

/-- Recover, as a function of the DEBUG toggle, the panic payload in flight
at the deferred call (none when the function returned normally), and the
current value of the caller's error slot. Yields the new slot value, the
returned error (none for Go nil), and the payload left propagating (some p
exactly when interception is disabled by DEBUG and a panic is in flight). -/
def Recover (debug : Bool) (p : Option Payload) (slot : Option GoError) :
    Option GoError × Option GoError × Option Payload :=
  if debug then (slot, none, p)
  else
    match p with
    | none => (slot, none, none)
    | some pl => (some (classify pl), some (classify pl), none)

/-- A status value sent on the caller-supplied channel by AsyncRecover:
either the caller's ok sentinel (an arbitrary value, of type A) or an error. -/
inductive StatVal (A : Type) where
  | sentinel (v : A)
  | errStat (e : GoError)
deriving DecidableEq

/-- A send on a Go buffered channel of the given capacity with the given
queued contents: succeeds immediately (appending the value) exactly when the
buffer has free space, and blocks otherwise (modelled as none). Receivers
are out of scope: the bridge's guarantee is precisely that the single send
succeeds without one. -/
def chanSend {A : Type} (cap : Nat) (buf : List (StatVal A)) (v : StatVal A) :
    Option (List (StatVal A)) :=
  if buf.length < cap then some (buf ++ [v]) else none

/-- AsyncRecover, as a function of the DEBUG toggle, the panic payload in
flight at the deferred call, and the ok sentinel: the list of values it
sends on the status channel, in order. With DEBUG set it sends nothing
(and, as in Recover, an in-flight panic would propagate). -/
def AsyncRecover (A : Type) (debug : Bool) (p : Option Payload) (okstat : A) :
    List (StatVal A) :=
  if debug then []
  else
    match p with
    | none => [.sentinel okstat]
    | some pl => [.errStat (classify pl)]

end Panics

namespace Flags

/-- The optionSpec record embedded in every option type: short name, long
name, help text, and the required flag. -/
structure OptionSpec where
  short : String
  long : String
  info : String
  required : Bool
deriving DecidableEq

/-- The view of an option through the Option interface used by
UsageVerify: the methods Name (short), LongName, Info, Required, and the
result of Provided (each concrete option type computes Provided as value
differing from default). -/
structure OptionView where
  short : String
  long : String
  info : String
  required : Bool
  provided : Bool
deriving DecidableEq

/-- Outcome of a verification step: normal return with no error, normal
return with an error, or a panic escaping the call. -/
inductive VerifyOutcome where
  | ok
  | fail (e : GoError)
  | panicked (e : GoError)
deriving DecidableEq

/-- The usage message built by verifyRequiredOption's switch for an
unprovided option that has at least one name: it names the long name when
the short name is empty, the short name when the long name is empty, and
both otherwise. -/
def usageMsg (o : OptionView) : String :=
  if o.short = "" then "Option \x7b -" ++ o.long ++ " \x7d must be provided"
  else if o.long = "" then "Option \x7b -" ++ o.short ++ " \x7d must be provided"
  else "Option \x7b -" ++ o.short ++ " | -" ++ o.long ++ " \x7d must be provided"

/-- verifyRequiredOption: a provided option verifies with no error; an
unprovided option with neither name defined panics with an IllegalState
bug error; otherwise the requirement-violation RequiredFlag error carrying
the usage message is returned. The Go nil-option guard has no counterpart
here since the embedded option is a value. The formatted representation of
the option interpolated into the bug message is abbreviated to its names. -/
def verifyRequiredOption (o : OptionView) : VerifyOutcome :=
  if o.provided then .ok
  else if o.short = "" ∧ o.long = "" then
    .panicked (Errors.IllegalState
      ["BUG:", "option:", o.short ++ "/" ++ o.long, "neither short or long name defined"])
  else .fail (Errors.RequiredFlag [usageMsg o])

/-- UsageVerify: iterate the record's option fields in declaration order
(the record is embedded as the list of its fields' OptionView values); for
each required option run verifyRequiredOption, returning its error as soon
as one is non-nil (and letting a panic escape); return nil if the end is
reached. -/
def UsageVerify : List OptionView → VerifyOutcome
  | [] => .ok
  | o :: rest =>
    if o.required then
      match verifyRequiredOption o with
      | .ok => UsageVerify rest
      | r => r
    else UsageVerify rest

/-- BoolOption: its optionSpec plus the value cell and the default. -/
structure BoolOption where
  spec : OptionSpec
  value : Bool
  defval : Bool
deriving DecidableEq

/-- IntOption: its optionSpec plus the value cell and the default (Go int
embedded as Int; no arithmetic occurs, so width is immaterial). -/
structure IntOption where
  spec : OptionSpec
  value : Int
  defval : Int
deriving DecidableEq

/-- Int64Option: its optionSpec plus the value cell and the default. -/
structure Int64Option where
  spec : OptionSpec
  value : Int
  defval : Int
deriving DecidableEq

/-- UintOption: its optionSpec plus the value cell and the default. -/
structure UintOption where
  spec : OptionSpec
  value : Nat
  defval : Nat
deriving DecidableEq

/-- Uint64Option: its optionSpec plus the value cell and the default. -/
structure Uint64Option where
  spec : OptionSpec
  value : Nat
  defval : Nat
deriving DecidableEq

/-- Float64Option: its optionSpec plus the value cell and the default. -/
structure Float64Option where
  spec : OptionSpec
  value : Float
  defval : Float

/-- StringOption: its optionSpec plus the value cell and the default. -/
structure StringOption where
  spec : OptionSpec
  value : String
  defval : String
deriving DecidableEq

/-- Provided method of StringOption: the stored value differs from the
default (the other option types compute it identically over their own value
types). -/
def StringOption.Provided (o : StringOption) : Bool :=
  o.value != o.defval

/-- The Option-interface view of a StringOption. -/
def StringOption.view (o : StringOption) : OptionView :=
  ⟨o.spec.short, o.spec.long, o.spec.info, o.spec.required, o.Provided⟩

/-- The condition under which every option constructor refuses its names:
the short and long names are both empty, or the short name equals the long
name (the two branches of the shared guard). -/
def badNames (s l : String) : Prop :=
  (s = "" ∧ l = "") ∨ s = l

/-- NewBoolOption: panics (modelled as Except.error) with an
IllegalArgument error when both names are empty, or when the names are
equal; otherwise builds the option and registers it with the flag set
(flag-set wiring is out of scope; registration under the non-empty name
assigns the default into the value cell, so the cell holds the default). -/
def NewBoolOption (short long : String) (defval : Bool) (info : String)
    (required : Bool) : Except GoError BoolOption :=
  if short = "" ∧ long = "" then
    .error (Errors.IllegalArgument ["Either long or short flag name must be provided"])
  else if short = long then
    .error (Errors.IllegalArgument ["flag long & short names must be distinct"])
  else .ok ⟨⟨short, long, info, required⟩, defval, defval⟩

/-- NewIntOption: same guard and construction as NewBoolOption, over int. -/
def NewIntOption (short long : String) (defval : Int) (info : String)
    (required : Bool) : Except GoError IntOption :=
  if short = "" ∧ long = "" then
    .error (Errors.IllegalArgument ["Either long or short flag name must be provided"])
  else if short = long then
    .error (Errors.IllegalArgument ["flag long & short names must be distinct"])
  else .ok ⟨⟨short, long, info, required⟩, defval, defval⟩

/-- NewInt64Option: same guard and construction, over int64. -/
def NewInt64Option (short long : String) (defval : Int) (info : String)
    (required : Bool) : Except GoError Int64Option :=
  if short = "" ∧ long = "" then
    .error (Errors.IllegalArgument ["Either long or short flag name must be provided"])
  else if short = long then
    .error (Errors.IllegalArgument ["flag long & short names must be distinct"])
  else .ok ⟨⟨short, long, info, required⟩, defval, defval⟩

/-- NewUintOption: same guard and construction, over uint. -/
def NewUintOption (short long : String) (defval : Nat) (info : String)
    (required : Bool) : Except GoError UintOption :=
  if short = "" ∧ long = "" then
    .error (Errors.IllegalArgument ["Either long or short flag name must be provided"])
  else if short = long then
    .error (Errors.IllegalArgument ["flag long & short names must be distinct"])
  else .ok ⟨⟨short, long, info, required⟩, defval, defval⟩

/-- NewUint64Option: same guard and construction, over uint64. -/
def NewUint64Option (short long : String) (defval : Nat) (info : String)
    (required : Bool) : Except GoError Uint64Option :=
  if short = "" ∧ long = "" then
    .error (Errors.IllegalArgument ["Either long or short flag name must be provided"])
  else if short = long then
    .error (Errors.IllegalArgument ["flag long & short names must be distinct"])
  else .ok ⟨⟨short, long, info, required⟩, defval, defval⟩

/-- NewFloat64Option: same guard and construction, over float64. -/
def NewFloat64Option (short long : String) (defval : Float) (info : String)
    (required : Bool) : Except GoError Float64Option :=
  if short = "" ∧ long = "" then
    .error (Errors.IllegalArgument ["Either long or short flag name must be provided"])
  else if short = long then
    .error (Errors.IllegalArgument ["flag long & short names must be distinct"])
  else .ok ⟨⟨short, long, info, required⟩, defval, defval⟩

/-- NewStringOption: same guard and construction, over string. -/
def NewStringOption (short long : String) (defval : String) (info : String)
    (required : Bool) : Except GoError StringOption :=
  if short = "" ∧ long = "" then
    .error (Errors.IllegalArgument ["Either long or short flag name must be provided"])
  else if short = long then
    .error (Errors.IllegalArgument ["flag long & short names must be distinct"])
  else .ok ⟨⟨short, long, info, required⟩, defval, defval⟩

end Flags

end Kriterium

open Kriterium Kriterium.Panics

/-! Helper lemmas shared by the claim theorems. -/

/-- Prefix at the level of character data implies strStartsB. -/
theorem strStartsB_true_of_data (pre s : String)
    (h : ∃ t : List Char, s.data = pre.data ++ t) : strStartsB pre s = true := by
  obtain ⟨t, ht⟩ := h
  unfold strStartsB
  rw [ht, List.isPrefixOf_iff_prefix]
  exact ⟨t, rfl⟩

/-- joinSpace of a non-empty list extends its head. -/
theorem joinSpace_cons_decomp (x : String) (xs : List String) :
    ∃ t : String, joinSpace (x :: xs) = x ++ t := by
  cases xs with
  | nil => exact ⟨"", (String.append_empty x).symm⟩
  | cons y ys =>
      refine ⟨" " ++ joinSpace (y :: ys), ?_⟩
      show x ++ " " ++ joinSpace (y :: ys) = x ++ (" " ++ joinSpace (y :: ys))
      rw [String.append_assoc]

/-- C1: Recover is a no-op returning nil with the caller's error slot
unchanged when no panic is in flight; with DEBUG set it intercepts nothing
and the in-flight panic propagates; otherwise it writes the classified
payload into the slot and also returns it, where the classification takes
the package's own carrier to an error bearing its message error's message,
a generic error to itself, a string payload to an error wrapping it, and
any other payload to a generically formatted recovered-panic error. -/
theorem recover_discriminated_mapping (p : Payload) (slot : Option GoError)
    (c m e : GoError) (s t : String) :
    Recover false none slot = (slot, none, none) ∧
    Recover true (some p) slot = (slot, none, some p) ∧
    Recover false (some p) slot = (some (classify p), some (classify p), none) ∧
    (classify (.carrier c m)).errorMsg = m.errorMsg ∧
    classify (.err e) = e ∧
    classify (.str s) = .mk s ∧
    classify (.other t) = .mk ("recovered-panic: " ++ t) :=
  ⟨rfl, rfl, rfl, rfl, rfl, rfl, rfl⟩

/-- C2: deferred in a worker with a status channel of capacity at least
one, AsyncRecover sends exactly one value: the caller's ok sentinel when
the worker completed without a panic, and the error classified by the same
discriminated mapping as Recover when it panicked; a send on an empty
channel of capacity at least one succeeds immediately, so the call never
blocks. -/
theorem asyncRecover_exactly_once (A : Type) (okstat : A) (p : Payload)
    (cap : Nat) (hcap : 1 ≤ cap) :
    AsyncRecover A false none okstat = [.sentinel okstat] ∧
    AsyncRecover A false (some p) okstat = [.errStat (classify p)] ∧
    (∀ v : StatVal A, chanSend cap [] v = some [v]) := by
  refine ⟨rfl, rfl, fun v => ?_⟩
  unfold chanSend
  simp only [List.length_nil, List.nil_append, if_pos (Nat.lt_of_lt_of_le Nat.zero_lt_one hcap)]

/-- Witness for C2 at a concrete sentinel, payload and capacity. -/
theorem asyncRecover_exactly_once_witness :
    AsyncRecover Nat false none 0 = [.sentinel 0] ∧
    AsyncRecover Nat false (some (.str "s")) 0 = [.errStat (classify (.str "s"))] ∧
    (∀ v : StatVal Nat, chanSend 1 [] v = some [v]) :=
  asyncRecover_exactly_once Nat 0 (.str "s") 1 (by decide)

/-- C4 counterexample: for the code X with no arguments the produced
error's message is the tag ERR followed by the code, which does not start
with the code X itself. -/
theorem errGen_code_start_counterexample :
    strStartsB "X" ((Kriterium.Errors.New "X" []).errorMsg) = false := by decide

/-- C4 (amended): for every code string C and every argument list, the
error produced by the generator returned by errors.New C has a message
that starts with the fixed tag ERR-dash followed by the code C (and hence
contains C); it does not in general start with C itself. -/
theorem errGen_message_starts_with_tagged_code (c : String) (args : List String) :
    strStartsB ("ERR - " ++ c) ((Kriterium.Errors.New c args).errorMsg) = true := by
  obtain ⟨t, ht⟩ :=
    joinSpace_cons_decomp ("ERR - " ++ c ++ (if args.length > 0 then ":" else "")) args
  have hmsg : (Kriterium.Errors.New c args).errorMsg
      = joinSpace (("ERR - " ++ c ++ (if args.length > 0 then ":" else "")) :: args) ++ "\n" :=
    rfl
  apply strStartsB_true_of_data
  refine ⟨(if args.length > 0 then ":" else "").data ++ (t.data ++ ("\n").data), ?_⟩
  rw [hmsg, ht]
  simp only [String.data_append, List.append_assoc]

/-- C5: Cause applied to any error that is not the assertion layer's
carrier returns it unchanged; and when OnError panics on a non-nil error e,
the error that a deferred Recover writes into the slot is the classified
carrier, whose Cause is the original triggering error e. -/
theorem cause_identity_and_onError (m : String) (e : GoError)
    (info : List String) (slot : Option GoError) :
    Cause (GoError.mk m) = GoError.mk m ∧
    (∀ p, OnError (some e) info = some p →
      (Recover false (some p) slot).1 = some (classify p) ∧ Cause (classify p) = e) := by
  refine ⟨rfl, fun p hp => ?_⟩
  unfold OnError at hp
  simp only [Option.some.injEq] at hp
  subst hp
  exact ⟨rfl, rfl⟩

/-- Witness for C5 at a concrete error, info list and slot. -/
theorem cause_identity_and_onError_witness :
    Cause (GoError.mk "x") = GoError.mk "x" ∧
    (Recover false (some (Payload.carrier (GoError.mk "y") (GoError.mk "error: y"))) none).1
        = some (classify (Payload.carrier (GoError.mk "y") (GoError.mk "error: y"))) ∧
    Cause (classify (Payload.carrier (GoError.mk "y") (GoError.mk "error: y"))) = GoError.mk "y" :=
  ⟨(cause_identity_and_onError "x" (GoError.mk "y") [] none).1,
   (cause_identity_and_onError "x" (GoError.mk "y") [] none).2
     (Payload.carrier (GoError.mk "y") (GoError.mk "error: y")) (by decide)⟩

/-- C6: the Matches predicate carried by the generator made for a code
returns true on every error produced by that same generator, for any
arguments; and it need not return true on errors produced by a generator
for a different code, as witnessed by two distinct codes. -/
theorem typedMatches_same_code (code : String) (args : List String) :
    Kriterium.Errors.Matches code (GoError.mk (Kriterium.Errors.typedErrMsg code args)) = true ∧
    (∃ c c2 args2, c ≠ c2 ∧
      Kriterium.Errors.Matches c (GoError.mk (Kriterium.Errors.typedErrMsg c2 args2)) = false) := by
  constructor
  · apply strStartsB_true_of_data
    cases args with
    | nil => exact ⟨[], (List.append_nil _).symm⟩
    | cons a as =>
        refine ⟨(": " ++ joinSpace (a :: as)).data, ?_⟩
        show (code ++ ": " ++ joinSpace (a :: as)).data = _
        simp only [String.data_append, List.append_assoc]
  · exact ⟨"a", "b", [], by decide, by decide⟩

/-- C7: OnFalse called with false and any descriptive fragments raises a
panic that a deferred Recover converts into a non-nil error written to the
slot and returned; OnFalse with true raises nothing, so Recover leaves the
slot unchanged and returns nil. -/
theorem onFalse_recover_spec (info : List String) (slot : Option GoError) :
    (∃ e, Recover false (OnFalse false info) slot = (some e, some e, none)) ∧
    Recover false (OnFalse true info) slot = (slot, none, none) :=
  ⟨⟨GoError.recovered (GoError.mk (fmtInfo info ++ " - assert-fail:"))
      (GoError.mk (fmtInfo info ++ " - assert-fail:")), rfl⟩, rfl⟩

open Kriterium.Flags Kriterium.Errors

/-- All-provided case: UsageVerify returns no error when every required
option is provided. -/
theorem usageVerify_ok_of_provided (l : List OptionView)
    (h : ∀ o ∈ l, o.required = true → o.provided = true) :
    UsageVerify l = .ok := by
  induction l with
  | nil => rfl
  | cons o rest ih =>
      have hrest : ∀ x ∈ rest, x.required = true → x.provided = true :=
        fun x hx => h x (List.mem_cons_of_mem o hx)
      by_cases hreq : o.required = true
      · have hprov : o.provided = true := h o (List.mem_cons_self o rest) hreq
        have hv : verifyRequiredOption o = .ok := by
          unfold verifyRequiredOption
          rw [hprov]
          simp
        simp only [UsageVerify, hreq, if_true, hv]
        exact ih hrest
      · simp only [UsageVerify, hreq, if_false, Bool.false_eq_true]
        exact ih hrest

/-- The first required-but-unprovided option in declaration order
determines UsageVerify's error, regardless of anything after it. -/
theorem usageVerify_first_fail (l1 : List OptionView) (o : OptionView)
    (l2 : List OptionView)
    (h1 : ∀ x ∈ l1, x.required = true → x.provided = true)
    (h2 : o.required = true) (h3 : o.provided = false)
    (h4 : o.short ≠ "" ∨ o.long ≠ "") :
    UsageVerify (l1 ++ o :: l2) = .fail (RequiredFlag [usageMsg o]) := by
  induction l1 with
  | nil =>
      have hnn : ¬(o.short = "" ∧ o.long = "") := by
        rintro ⟨hs, hl⟩
        rcases h4 with h | h
        · exact h hs
        · exact h hl
      have hv : verifyRequiredOption o = .fail (RequiredFlag [usageMsg o]) := by
        unfold verifyRequiredOption
        rw [h3]
        simp [hnn]
      simp [UsageVerify, h2, hv]
  | cons x rest ih =>
      have hx : x.required = true → x.provided = true :=
        h1 x (List.mem_cons_self x rest)
      have hrest : ∀ y ∈ rest, y.required = true → y.provided = true :=
        fun y hy => h1 y (List.mem_cons_of_mem x hy)
      by_cases hreq : x.required = true
      · have hprov := hx hreq
        have hv : verifyRequiredOption x = .ok := by
          unfold verifyRequiredOption
          rw [hprov]
          simp
        simp only [List.cons_append, UsageVerify, hreq, if_true, hv]
        exact ih hrest
      · simp only [List.cons_append, UsageVerify, hreq, if_false, Bool.false_eq_true]
        exact ih hrest

/-- Any record containing a required-but-unprovided option splits at the
first such option in declaration order. -/
theorem exists_first_violator (l : List OptionView)
    (hex : ∃ o ∈ l, o.required = true ∧ o.provided = false) :
    ∃ l1 o l2, l = l1 ++ o :: l2 ∧
      (∀ x ∈ l1, x.required = true → x.provided = true) ∧
      o.required = true ∧ o.provided = false := by
  induction l with
  | nil => rcases hex with ⟨o, h, _⟩; cases h
  | cons x rest ih =>
      by_cases hx : x.required = true ∧ x.provided = false
      · refine ⟨[], x, rest, rfl, ?_, hx.1, hx.2⟩
        intro y hy
        cases hy
      · have hex2 : ∃ o ∈ rest, o.required = true ∧ o.provided = false := by
          rcases hex with ⟨o, hmem, ho⟩
          rcases List.mem_cons.mp hmem with h | h
          · subst h; exact absurd ho hx
          · exact ⟨o, h, ho⟩
        obtain ⟨l1, o, l2, heq, hpass, hreq, hprov⟩ := ih hex2
        refine ⟨x :: l1, o, l2, by rw [heq, List.cons_append], ?_, hreq, hprov⟩
        intro y hy
        rcases List.mem_cons.mp hy with h | h
        · subst h
          intro hyr
          by_contra hyp
          cases hb : y.provided
          · exact hx ⟨hyr, hb⟩
          · exact hyp hb
        · exact hpass y h

/-- The requirement-violation error for an unprovided option names the
option's short name when defined and its long name when defined. -/
theorem usageMsg_names (o : OptionView) :
    (o.short ≠ "" → strContains o.short ((RequiredFlag [usageMsg o]).errorMsg)) ∧
    (o.long ≠ "" → strContains o.long ((RequiredFlag [usageMsg o]).errorMsg)) := by
  have hmsg : ∀ u : String,
      (RequiredFlag [u]).errorMsg = "ERR - RequiredFlag: " ++ u ++ "\n" :=
    fun u => rfl
  by_cases hs : o.short = ""
  · refine ⟨fun h => absurd hs h, fun _ => ?_⟩
    rw [hmsg]
    unfold usageMsg
    rw [if_pos hs]
    refine ⟨"ERR - RequiredFlag: " ++ "Option \x7b -", " \x7d must be provided" ++ "\n", ?_⟩
    simp only [String.append_assoc]
  · by_cases hl : o.long = ""
    · refine ⟨fun _ => ?_, fun h => absurd hl h⟩
      rw [hmsg]
      unfold usageMsg
      rw [if_neg hs, if_pos hl]
      refine ⟨"ERR - RequiredFlag: " ++ "Option \x7b -", " \x7d must be provided" ++ "\n", ?_⟩
      simp only [String.append_assoc]
    · refine ⟨fun _ => ?_, fun _ => ?_⟩
      · rw [hmsg]
        unfold usageMsg
        rw [if_neg hs, if_neg hl]
        refine ⟨"ERR - RequiredFlag: " ++ "Option \x7b -",
          " | -" ++ o.long ++ " \x7d must be provided" ++ "\n", ?_⟩
        simp only [String.append_assoc]
      · rw [hmsg]
        unfold usageMsg
        rw [if_neg hs, if_neg hl]
        refine ⟨"ERR - RequiredFlag: " ++ "Option \x7b -" ++ o.short ++ " | -",
          " \x7d must be provided" ++ "\n", ?_⟩
        simp only [String.append_assoc]

/-- C3: over a record of option descriptors each carrying at least one
name, UsageVerify returns nil when every mandatory option has been
explicitly provided, and when some mandatory option's stored value equals
its default it returns the requirement-violation error for such an option,
whose message names that option's short name and/or long name. -/
theorem usageVerify_required_spec (l : List OptionView)
    (hnames : ∀ o ∈ l, o.short ≠ "" ∨ o.long ≠ "") :
    ((∀ o ∈ l, o.required = true → o.provided = true) → UsageVerify l = .ok) ∧
    ((∃ o ∈ l, o.required = true ∧ o.provided = false) →
      ∃ o, o ∈ l ∧ o.required = true ∧ o.provided = false ∧
        UsageVerify l = .fail (RequiredFlag [usageMsg o]) ∧
        (o.short ≠ "" → strContains o.short ((RequiredFlag [usageMsg o]).errorMsg)) ∧
        (o.long ≠ "" → strContains o.long ((RequiredFlag [usageMsg o]).errorMsg))) := by
  refine ⟨usageVerify_ok_of_provided l, fun hex => ?_⟩
  obtain ⟨l1, o, l2, heq, hpass, hreq, hprov⟩ := exists_first_violator l hex
  have hmem : o ∈ l := by
    rw [heq]
    exact List.mem_append_right l1 (List.mem_cons_self o l2)
  have hname := hnames o hmem
  have hfail := usageVerify_first_fail l1 o l2 hpass hreq hprov hname
  have hcontain := usageMsg_names o
  exact ⟨o, hmem, hreq, hprov, by rw [heq]; exact hfail, hcontain.1, hcontain.2⟩

/-- Witness for C3 on two concrete one-option records. -/
theorem usageVerify_required_spec_witness :
    UsageVerify [⟨"p", "port", "", true, true⟩] = .ok ∧
    (∃ o, o ∈ [(⟨"x", "xray", "", true, false⟩ : OptionView)] ∧ o.required = true ∧
      o.provided = false ∧
      UsageVerify [(⟨"x", "xray", "", true, false⟩ : OptionView)]
        = .fail (RequiredFlag [usageMsg o]) ∧
      (o.short ≠ "" → strContains o.short ((RequiredFlag [usageMsg o]).errorMsg)) ∧
      (o.long ≠ "" → strContains o.long ((RequiredFlag [usageMsg o]).errorMsg))) :=
  ⟨(usageVerify_required_spec [⟨"p", "port", "", true, true⟩]
      (by intro o ho; rw [List.mem_singleton] at ho; subst ho; left; decide)).1
      (by intro o ho; rw [List.mem_singleton] at ho; subst ho; intro hr; rfl),
   (usageVerify_required_spec [⟨"x", "xray", "", true, false⟩]
      (by intro o ho; rw [List.mem_singleton] at ho; subst ho; left; decide)).2
      ⟨⟨"x", "xray", "", true, false⟩, List.mem_singleton.mpr rfl, by decide⟩⟩

/-- C8: when the record contains a mandatory-but-unprovided option, with
every earlier field passing verification, UsageVerify returns the
requirement-violation error for that first option, and the outcome is the
same whatever fields come after it. -/
theorem usageVerify_first_violation (l1 l2 l3 : List OptionView) (o : OptionView)
    (h1 : ∀ x ∈ l1, x.required = true → x.provided = true)
    (h2 : o.required = true) (h3 : o.provided = false)
    (h4 : o.short ≠ "" ∨ o.long ≠ "") :
    UsageVerify (l1 ++ o :: l2) = .fail (RequiredFlag [usageMsg o]) ∧
    UsageVerify (l1 ++ o :: l2) = UsageVerify (l1 ++ o :: l3) := by
  have ha := usageVerify_first_fail l1 o l2 h1 h2 h3 h4
  have hb := usageVerify_first_fail l1 o l3 h1 h2 h3 h4
  exact ⟨ha, by rw [ha, hb]⟩

/-- Witness for C8: a passing field, then the first violator, then a later
violator that is never reached. -/
theorem usageVerify_first_violation_witness :
    UsageVerify [⟨"a", "alpha", "", true, true⟩, ⟨"c", "gamma", "", true, false⟩,
        ⟨"d", "delta", "", true, false⟩]
      = .fail (RequiredFlag [usageMsg ⟨"c", "gamma", "", true, false⟩]) ∧
    UsageVerify [⟨"a", "alpha", "", true, true⟩, ⟨"c", "gamma", "", true, false⟩,
        ⟨"d", "delta", "", true, false⟩]
      = UsageVerify [⟨"a", "alpha", "", true, true⟩, ⟨"c", "gamma", "", true, false⟩] :=
  usageVerify_first_violation [⟨"a", "alpha", "", true, true⟩]
    [⟨"d", "delta", "", true, false⟩] [] ⟨"c", "gamma", "", true, false⟩
    (by intro x hx; rw [List.mem_singleton] at hx; subst hx; intro hr; rfl)
    rfl rfl (by left; decide)

/-- Both guard branches of the option constructors, abstracted over the
constructed descriptor: the result is an IllegalArgument panic exactly on
bad names, and the built descriptor otherwise. -/
theorem guard_aux {B : Type} (s l : String) (res : B) (r : Except GoError B)
    (hr : r = if s = "" ∧ l = "" then
        Except.error (IllegalArgument ["Either long or short flag name must be provided"])
      else if s = l then
        Except.error (IllegalArgument ["flag long & short names must be distinct"])
      else Except.ok res) :
    ((∃ args, r = Except.error (IllegalArgument args)) ↔ badNames s l) ∧
    (¬ badNames s l → r = Except.ok res) := by
  subst hr
  by_cases h1 : s = "" ∧ l = ""
  · rw [if_pos h1]
    exact ⟨⟨fun _ => Or.inl h1,
      fun _ => ⟨["Either long or short flag name must be provided"], rfl⟩⟩,
      fun hb => absurd (Or.inl h1) hb⟩
  · rw [if_neg h1]
    by_cases h2 : s = l
    · rw [if_pos h2]
      exact ⟨⟨fun _ => Or.inr h2,
        fun _ => ⟨["flag long & short names must be distinct"], rfl⟩⟩,
        fun hb => absurd (Or.inr h2) hb⟩
    · rw [if_neg h2]
      refine ⟨⟨fun h => ?_, fun hb => ?_⟩, fun _ => rfl⟩
      · obtain ⟨args, h⟩ := h
        exact Except.noConfusion h
      · rcases hb with h | h
        · exact absurd h h1
        · exact absurd h h2

/-- C9: each of the seven option constructors halts by panicking with an
illegal-argument error exactly when the short and long names are both empty
or the short name equals the long name, and otherwise returns the
constructed option descriptor. -/
theorem newOption_constructors_guard (s l info2 : String) (req : Bool)
    (bd : Bool) (idv : Int) (i64 : Int) (ud : Nat) (u64 : Nat) (fd : Float)
    (sd : String) :
    (((∃ args, NewBoolOption s l bd info2 req = .error (IllegalArgument args))
        ↔ badNames s l) ∧
      (¬ badNames s l → NewBoolOption s l bd info2 req = .ok ⟨⟨s, l, info2, req⟩, bd, bd⟩)) ∧
    (((∃ args, NewIntOption s l idv info2 req = .error (IllegalArgument args))
        ↔ badNames s l) ∧
      (¬ badNames s l → NewIntOption s l idv info2 req = .ok ⟨⟨s, l, info2, req⟩, idv, idv⟩)) ∧
    (((∃ args, NewInt64Option s l i64 info2 req = .error (IllegalArgument args))
        ↔ badNames s l) ∧
      (¬ badNames s l → NewInt64Option s l i64 info2 req = .ok ⟨⟨s, l, info2, req⟩, i64, i64⟩)) ∧
    (((∃ args, NewUintOption s l ud info2 req = .error (IllegalArgument args))
        ↔ badNames s l) ∧
      (¬ badNames s l → NewUintOption s l ud info2 req = .ok ⟨⟨s, l, info2, req⟩, ud, ud⟩)) ∧
    (((∃ args, NewUint64Option s l u64 info2 req = .error (IllegalArgument args))
        ↔ badNames s l) ∧
      (¬ badNames s l → NewUint64Option s l u64 info2 req = .ok ⟨⟨s, l, info2, req⟩, u64, u64⟩)) ∧
    (((∃ args, NewFloat64Option s l fd info2 req = .error (IllegalArgument args))
        ↔ badNames s l) ∧
      (¬ badNames s l → NewFloat64Option s l fd info2 req = .ok ⟨⟨s, l, info2, req⟩, fd, fd⟩)) ∧
    (((∃ args, NewStringOption s l sd info2 req = .error (IllegalArgument args))
        ↔ badNames s l) ∧
      (¬ badNames s l → NewStringOption s l sd info2 req = .ok ⟨⟨s, l, info2, req⟩, sd, sd⟩)) :=
  ⟨guard_aux s l _ _ rfl, guard_aux s l _ _ rfl, guard_aux s l _ _ rfl,
   guard_aux s l _ _ rfl, guard_aux s l _ _ rfl, guard_aux s l _ _ rfl,
   guard_aux s l _ _ rfl⟩

/-- Witness for C9: empty names are rejected with an illegal-argument
error, and distinct names construct the descriptor. -/
theorem newOption_constructors_guard_witness :
    (∃ args, NewBoolOption "" "" true "i" true = .error (IllegalArgument args)) ∧
    NewStringOption "s" "long" "d" "i" false = .ok ⟨⟨"s", "long", "i", false⟩, "d", "d"⟩ :=
  ⟨((newOption_constructors_guard "" "" "i" true true 0 0 0 0 0 "d").1.1).mpr
      (Or.inl ⟨rfl, rfl⟩),
   ((newOption_constructors_guard "s" "long" "i" false true 0 0 0 0 0 "d").2.2.2.2.2.2.2)
      (by unfold badNames; decide)⟩

/-- C10: the carriers raised by OnFalse, OnTrue and OnNil store one and the
same formatted assertion error as both cause and message, so
cause-extraction on the recovered error yields that formatted assertion
error; and OnError can produce a carrier whose cause differs from its
message error. -/
theorem assert_carrier_dup_cause (info : List String) :
    (∀ p, OnFalse false info = some p →
      ∃ e, p = Payload.carrier e e ∧ Cause (classify p) = e ∧
        e = GoError.mk (fmtInfo info ++ " - assert-fail:")) ∧
    (∀ p, OnTrue true info = some p →
      ∃ e, p = Payload.carrier e e ∧ Cause (classify p) = e ∧
        e = GoError.mk (fmtInfo info ++ " - assert-fail:")) ∧
    (∀ p, OnNil none info = some p →
      ∃ e, p = Payload.carrier e e ∧ Cause (classify p) = e ∧
        e = GoError.mk (fmtInfo info ++ " - value is nil:")) ∧
    (∃ e0 inf c m, OnError (some e0) inf = some (Payload.carrier c m) ∧ c ≠ m) := by
  refine ⟨fun p hp => ?_, fun p hp => ?_, fun p hp => ?_, ?_⟩
  · have h0 : OnFalse false info
        = some (Payload.carrier (GoError.mk (fmtInfo info ++ " - assert-fail:"))
            (GoError.mk (fmtInfo info ++ " - assert-fail:"))) := rfl
    rw [h0] at hp
    injection hp with h
    subst h
    exact ⟨GoError.mk (fmtInfo info ++ " - assert-fail:"), rfl, rfl, rfl⟩
  · have h0 : OnTrue true info
        = some (Payload.carrier (GoError.mk (fmtInfo info ++ " - assert-fail:"))
            (GoError.mk (fmtInfo info ++ " - assert-fail:"))) := rfl
    rw [h0] at hp
    injection hp with h
    subst h
    exact ⟨GoError.mk (fmtInfo info ++ " - assert-fail:"), rfl, rfl, rfl⟩
  · have h0 : OnNil none info
        = some (Payload.carrier (GoError.mk (fmtInfo info ++ " - value is nil:"))
            (GoError.mk (fmtInfo info ++ " - value is nil:"))) := rfl
    rw [h0] at hp
    injection hp with h
    subst h
    exact ⟨GoError.mk (fmtInfo info ++ " - value is nil:"), rfl, rfl, rfl⟩
  · exact ⟨GoError.mk "x", [], GoError.mk "x", GoError.mk "error: x", by decide, by decide⟩

/-- Witness for C10 at a one-fragment info list. -/
theorem assert_carrier_dup_cause_witness :
    (∃ e, Payload.carrier (GoError.mk (fmtInfo ["a"] ++ " - assert-fail:"))
        (GoError.mk (fmtInfo ["a"] ++ " - assert-fail:")) = Payload.carrier e e ∧
      Cause (classify (Payload.carrier (GoError.mk (fmtInfo ["a"] ++ " - assert-fail:"))
        (GoError.mk (fmtInfo ["a"] ++ " - assert-fail:")))) = e ∧
      e = GoError.mk (fmtInfo ["a"] ++ " - assert-fail:")) ∧
    (∃ e0 inf c m, OnError (some e0) inf = some (Payload.carrier c m) ∧ c ≠ m) :=
  ⟨(assert_carrier_dup_cause ["a"]).1 _ rfl, (assert_carrier_dup_cause ["a"]).2.2.2⟩
